import Mathlib

/-!
Shallow embedding of the RISC-V debug driver in src/src/target/riscv/riscv.c.

The embedding models the debug-bus (DBUS) scan protocol, its one-entry
address/op cache, the busy-retry loops, the Debug-RAM index mapping and
word access helpers, the DTM-info read, and the poll state decoding.
The JTAG transport is modelled as an environment function giving, for the
i-th scan executed in the session, either a transport failure (the error
code jtag_execute_queue would return) or the 2-bit result code and 34-bit
data field latched in during the shift.

Machine integers are Nat with explicit reductions modulo 2^w where the C
code truncates (uint16_t casts, 34-bit data fields, uint32_t returns).
-/

set_option maxRecDepth 10000

/-- DEBUG_ROM_START from riscv.c line 16. -/
def DEBUG_ROM_START : Nat := 0x800

/-- DEBUG_ROM_RESUME from riscv.c line 17. -/
def DEBUG_ROM_RESUME : Nat := DEBUG_ROM_START + 4

/-- DEBUG_RAM_START from riscv.c line 19. -/
def DEBUG_RAM_START : Nat := 0x400

/-- DTMINFO_ADDRBITS mask (0xf shifted left by 4), riscv.c line 24. -/
def DTMINFO_ADDRBITS : Nat := 0xf <<< 4

/-- DMCONTROL register address, riscv.c line 48. -/
def DMCONTROL : Nat := 0x10

/-- DMCONTROL_HALTNOT bit (1L shifted left by 33), riscv.c line 49. -/
def DMCONTROL_HALTNOT : Nat := 1 <<< 33

/-- DMCONTROL_INTERRUPT bit (1L shifted left by 32), riscv.c line 50. -/
def DMCONTROL_INTERRUPT : Nat := 1 <<< 32

/-- DBUS_ADDRESS_UNKNOWN sentinel, riscv.c line 75. -/
def DBUS_ADDRESS_UNKNOWN : Nat := 0xffff

/-- DBUS_DATA_SIZE (width of the dbus data field in bits), riscv.c line 43. -/
def DBUS_DATA_SIZE : Nat := 34

/-- Two's-complement bitwise NOT at width 64, used to translate the C
expression ~(mask << 1) evaluated in 64-bit arithmetic. -/
def complement64 (x : Nat) : Nat := (2 ^ 64 - 1) ^^^ (x % 2 ^ 64)

/-- Two's-complement bitwise NOT at width 32. -/
def complement32 (x : Nat) : Nat := (2 ^ 32 - 1) ^^^ (x % 2 ^ 32)

/-- The get_field macro from riscv.c line 13, for a 64-bit register:
(reg & mask) / (mask & ~(mask << 1)). -/
def get_field64 (reg mask : Nat) : Nat :=
  (reg &&& mask) / (mask &&& complement64 (mask <<< 1))

/-- The get_field macro from riscv.c line 13, for a 32-bit register. -/
def get_field32 (reg mask : Nat) : Nat :=
  (reg &&& mask) / (mask &&& complement32 (mask <<< 1))

/-- dbus_op_t from riscv.c lines 30-35. -/
inductive DbusOp where
  | nop
  | read
  | write
  | conditionalWrite
deriving DecidableEq, Repr

/-- dbus_result_t from riscv.c lines 36-41, as the integer result code the
2-bit result field decodes to. -/
inductive DbusResult where
  | success
  | noWrite
  | failed
  | busy
deriving DecidableEq, Repr

/-- Integer value of a dbus result code (SUCCESS=0, NO_WRITE=1, FAILED=2,
BUSY=3), matching the enum values in riscv.c lines 36-41. -/
def DbusResult.toCode : DbusResult → Int
  | .success => 0
  | .noWrite => 1
  | .failed => 2
  | .busy => 3

/-- riscv_info_t from riscv.c lines 77-95 (the dram pointer is represented
only through dram_valid; its heap contents are never read by the code
under verification). -/
structure RiscvInfo where
  addrbits : Nat
  xlen : Nat
  dbus_address : Nat
  dbus_op : DbusOp
  dramsize : Nat
  dram_valid : Nat
deriving DecidableEq, Repr

/-- Response of the JTAG transport to one executed dbus scan: either
jtag_execute_queue fails with an error code, or the scan shifts in a
result code and a data field. -/
inductive TransportResp where
  | fail (err : Int)
  | ok (result : DbusResult) (dataIn : Nat)

/-- One DR scan driven onto the wire by dbus_scan: the operation code, the
address field truncated to addrbits bits, and the 34-bit data field, as
assembled by buf_set_u64 in riscv.c lines 131-133. -/
structure Scan where
  op : DbusOp
  addr : Nat
  data : Nat
deriving DecidableEq, Repr

/-- Session state threaded through the embedding: the riscv_info_t record,
the number of scans executed so far (index into the transport environment)
and the list of scans driven onto the wire. -/
structure DbusState where
  info : RiscvInfo
  count : Nat
  trace : List Scan
deriving DecidableEq, Repr

/-- Result code the i-th scan comes back with: the transport error code if
the queue failed (returned directly by dbus_scan at riscv.c line 143), or
the 2-bit result field otherwise (riscv.c line 149). -/
def respCode (env : Nat → TransportResp) (i : Nat) : Int :=
  match env i with
  | .fail err => err
  | .ok r _ => r.toCode

/-- Data field the i-th scan shifts in, available only when the queue
executed (riscv.c lines 146-148); none models the *data_in pointer being
left unwritten on transport failure. -/
def respData (env : Nat → TransportResp) (i : Nat) : Option Nat :=
  match env i with
  | .fail _ => none
  | .ok _ d => some (d % 2 ^ DBUS_DATA_SIZE)

/-- dbus_scan from riscv.c lines 118-150: records the scan (op and data
truncated to their field widths, address truncated to addrbits), updates
the cached dbus_address and dbus_op BEFORE the queue is executed (lines
137-138), and returns the result code (the jtag error on failure) plus the
data field when available. -/
def dbus_scan (env : Nat → TransportResp) (s : DbusState) (op : DbusOp)
    (address : Nat) (data_out : Nat) : DbusState × Int × Option Nat :=
  let sc : Scan :=
    { op := op, addr := address % 2 ^ s.info.addrbits,
      data := data_out % 2 ^ DBUS_DATA_SIZE }
  let info := { s.info with dbus_address := address, dbus_op := op }
  let s' : DbusState := { info := info, count := s.count + 1, trace := s.trace ++ [sc] }
  (s', respCode env s.count, respData env s.count)

/-- The retry-while-BUSY loop shared by dbus_read and dbus_write
(riscv.c lines 159-161, 164-166, 176-178): re-issues the identical scan
while the result code equals DBUS_RESULT_BUSY (3). The C loop has no
bound; fuel is the modelling artifact making the recursion well-founded,
with none meaning the loop is still spinning after fuel scans. The acc
argument mirrors the uint64 the caller's data pointer targets: it keeps
the last successfully shifted-in data field. -/
def dbus_busy_loop (env : Nat → TransportResp) (op : DbusOp)
    (address data_out : Nat) : Nat → DbusState → Option Nat →
    Option (DbusState × Int × Option Nat)
  | 0, _, _ => none
  | fuel + 1, s, acc =>
    let r := dbus_scan env s op address data_out
    let acc2 := match r.2.2 with
      | none => acc
      | some v => some v
    if r.2.1 = 3 then dbus_busy_loop env op address data_out fuel r.1 acc2
    else some (r.1, r.2.1, acc2)

/-- dbus_write from riscv.c lines 173-183: a WRITE scan retried while
BUSY; the terminal result code is only logged, never raised. -/
def dbus_write (env : Nat → TransportResp) (fuel : Nat) (s : DbusState)
    (address value : Nat) : Option (DbusState × Int) :=
  (dbus_busy_loop env .write address value fuel s none).map (fun r => (r.1, r.2.1))

/-- dbus_read from riscv.c lines 152-171: if the address differs from the
cached dbus_address or the cached op is NOP, first issue a READ scan to
address (retried while BUSY, result discarded); then in every case issue a
READ scan to next_address (retried while BUSY) and return its data field,
which is the pipelined data of the previous operation. -/
def dbus_read (env : Nat → TransportResp) (fuel : Nat) (s : DbusState)
    (address next_address : Nat) : Option (DbusState × Int × Option Nat) :=
  let first : Option DbusState :=
    if address ≠ s.info.dbus_address ∨ s.info.dbus_op = DbusOp.nop then
      (dbus_busy_loop env .read address 0 fuel s none).map Prod.fst
    else some s
  first.bind (fun s1 => dbus_busy_loop env .read next_address 0 fuel s1 none)

/-- dram_address from riscv.c lines 110-116: the unsigned int argument and
arithmetic wrap at 2^32, and the uint16_t return truncates to 2^16. -/
def dram_address (index : Nat) : Nat :=
  let i := index % 2 ^ 32
  if i < 0x10 then i else ((0x40 + i - 0x10) % 2 ^ 32) % 2 ^ 16

/-- dram_read32 from riscv.c lines 212-218: reads the mapped address with
next_address equal to the same address; the set_interrupt parameter is
ignored by the C code. The uint32_t return truncates the 64-bit value. -/
def dram_read32 (env : Nat → TransportResp) (fuel : Nat) (s : DbusState)
    (index : Nat) (set_interrupt : Bool) : Option (DbusState × Int × Option Nat) :=
  let address := dram_address index
  (dbus_read env fuel s address address).map
    (fun r => (r.1, r.2.1, r.2.2.map (fun v => v % 2 ^ 32)))

/-- dram_write32 from riscv.c lines 220-228: ORs the halt-request bit, and
the interrupt-request bit when set_interrupt is true, into the value and
writes it to the mapped address. -/
def dram_write32 (env : Nat → TransportResp) (fuel : Nat) (s : DbusState)
    (index : Nat) (value : Nat) (set_interrupt : Bool) : Option (DbusState × Int) :=
  let dbus_value := DMCONTROL_HALTNOT ||| value % 2 ^ 32
  let dbus_value := if set_interrupt then dbus_value ||| DMCONTROL_INTERRUPT else dbus_value
  dbus_write env fuel s (dram_address index) dbus_value

/-- The 32-bit jump-target offset dram_write_jump (riscv.c lines 242-247)
passes to the jal encoder: (uint32_t)(DEBUG_ROM_RESUME - (DEBUG_RAM_START
+ 4*index)). The C subtraction happens in unsigned 32-bit arithmetic
because index is unsigned int, hence the wrap at 2^32. The jal encoder
itself lives in opcodes.h, which is outside the sources under
verification; the claims about this function concern only the offset
argument, which this definition transcribes. -/
def dram_write_jump_offset (index : Nat) : Nat :=
  (DEBUG_ROM_RESUME + 2 ^ 32 - (DEBUG_RAM_START + 4 * index) % 2 ^ 32) % 2 ^ 32

/-- The riscv_info_t contents established by riscv_init_target (riscv.c
lines 251-266): calloc zeroes every field, then dbus_address is set to the
unknown sentinel and dbus_op to NOP. -/
def riscv_init_info : RiscvInfo :=
  { addrbits := 0, xlen := 0, dbus_address := DBUS_ADDRESS_UNKNOWN,
    dbus_op := DbusOp.nop, dramsize := 0, dram_valid := 0 }

/-- dtminfo_read from riscv.c lines 185-210, as a function of whether
jtag_execute_queue succeeds: on failure the int error code is returned
through the uint32_t return type (line 200), i.e. reduced modulo 2^32; on
success the 32 bits shifted in are returned. -/
def dtminfo_read (exec : Except Int Nat) : Nat :=
  match exec with
  | .error retval => (retval % (2 ^ 32 : Int)).toNat
  | .ok scanned => scanned % 2 ^ 32

/-- The addrbits value riscv_examine (riscv.c line 289) decodes from
whatever dtminfo_read returned; the C caller performs this decode
unconditionally, without checking for a failed scan. -/
def riscv_examine_addrbits (exec : Except Int Nat) : Nat :=
  get_field32 (dtminfo_read exec) DTMINFO_ADDRBITS

/-- Target lifecycle states used by riscv_poll (the openocd target_state
values the driver assigns, plus unknown/reset which it only reads). -/
inductive TargetState where
  | unknown
  | running
  | halted
  | reset
  | debugRunning
deriving DecidableEq, Repr

/-- The state decode in riscv_poll, riscv.c lines 343-354: haltnot and
interrupt are the HALTNOT and INTERRUPT bits of the 64-bit value read from
the bus; the four-way branch assigns the new target state, leaving it
unchanged when haltnot is clear and interrupt is set. -/
def riscv_poll_update (value : Nat) (old : TargetState) : TargetState :=
  let haltnot : Bool := get_field64 value DMCONTROL_HALTNOT != 0
  let interrupt : Bool := get_field64 value DMCONTROL_INTERRUPT != 0
  if haltnot && interrupt then TargetState.debugRunning
  else if haltnot && !interrupt then TargetState.halted
  else if !haltnot && interrupt then old
  else if !haltnot && !interrupt then TargetState.running
  else old

/-- Transport environment in which every scan executes and returns
SUCCESS with data 0. -/
def envAllSuccess : Nat → TransportResp := fun _ => TransportResp.ok DbusResult.success 0

/-- Transport environment in which every scan executes and returns BUSY. -/
def envAllBusy : Nat → TransportResp := fun _ => TransportResp.ok DbusResult.busy 0

/-- Transport environment in which the queue always fails with error code
-4 (the openocd generic failure code). -/
def envAllFail : Nat → TransportResp := fun _ => TransportResp.fail (-4)

/-- Stub environment returning BUSY for the first k scans and SUCCESS
(with data 0) from scan k on. -/
def busyThenEnv (k : Nat) : Nat → TransportResp := fun i =>
  if i < k then TransportResp.ok DbusResult.busy 0 else TransportResp.ok DbusResult.success 0

/-- Session state right after examine has learned addrbits = 6: the
init-time cache sentinel and NOP op are still in place and no scan has
been issued yet. -/
def s0 : DbusState :=
  { info := { riscv_init_info with addrbits := 6 }, count := 0, trace := [] }

/-- Helper: the get_field macro applied to a 64-bit register with the
HALTNOT single-bit mask extracts bit 33. -/
theorem get_field64_haltnot (value : Nat) :
    get_field64 value DMCONTROL_HALTNOT = (value.testBit 33).toNat := by
  have hm : DMCONTROL_HALTNOT = 2 ^ 33 := by decide
  have hd : DMCONTROL_HALTNOT &&& complement64 (DMCONTROL_HALTNOT <<< 1) = 2 ^ 33 := by decide
  unfold get_field64
  rw [hd, hm, Nat.and_two_pow]
  exact Nat.mul_div_cancel _ (by positivity)

/-- Helper: the get_field macro applied to a 64-bit register with the
INTERRUPT single-bit mask extracts bit 32. -/
theorem get_field64_interrupt (value : Nat) :
    get_field64 value DMCONTROL_INTERRUPT = (value.testBit 32).toNat := by
  have hm : DMCONTROL_INTERRUPT = 2 ^ 32 := by decide
  have hd : DMCONTROL_INTERRUPT &&& complement64 (DMCONTROL_INTERRUPT <<< 1) = 2 ^ 32 := by decide
  unfold get_field64
  rw [hd, hm, Nat.and_two_pow]
  exact Nat.mul_div_cancel _ (by positivity)

/-- C2: after any dbus_scan, the cached (dbus_address, dbus_op) pair
equals the (address, op) just scanned, for every transport response —
result codes and queue failures included — because riscv.c lines 137-138
update the cache before jtag_execute_queue runs. -/
theorem C2_scan_updates_cache : ∀ (env : Nat → TransportResp) (s : DbusState)
    (op : DbusOp) (address data_out : Nat), s.info.addrbits ≠ 0 →
    (dbus_scan env s op address data_out).1.info.dbus_address = address ∧
    (dbus_scan env s op address data_out).1.info.dbus_op = op := by
  intro env s op address data_out _h
  exact ⟨rfl, rfl⟩

/-- Witness for C2 at a concrete input: a scan whose queue execution
fails still leaves the cache holding the scanned address and op. -/
theorem C2_witness :
    (dbus_scan envAllFail s0 DbusOp.write 7 9).1.info.dbus_address = 7 ∧
    (dbus_scan envAllFail s0 DbusOp.write 7 9).1.info.dbus_op = DbusOp.write :=
  C2_scan_updates_cache envAllFail s0 DbusOp.write 7 9 (by decide)

/-- C3: the poll decode implements the exact transition table: bits
(haltnot, interrupt) = (1,1) gives DebugRunning, (1,0) gives Halted,
(0,1) leaves the state unchanged, (0,0) gives Running. -/
theorem C3_poll_transition_table : ∀ (value : Nat) (old : TargetState),
    riscv_poll_update value old =
      if value.testBit 33 then
        (if value.testBit 32 then TargetState.debugRunning else TargetState.halted)
      else
        (if value.testBit 32 then old else TargetState.running) := by
  intro value old
  unfold riscv_poll_update
  cases hb : value.testBit 33 <;> cases hi : value.testBit 32 <;>
    simp [get_field64_haltnot, get_field64_interrupt, hb, hi]

/-- Helper: closed form of dram_address on the Debug-RAM index domain. -/
theorem dram_address_eq (i : Nat) (h : i ≤ 64) :
    dram_address i = if i < 16 then i else 0x40 + (i - 16) := by
  have h32 : i % 2 ^ 32 = i := Nat.mod_eq_of_lt (by omega)
  simp only [dram_address, h32]
  by_cases h16 : i < 16
  · rw [if_pos h16, if_pos h16]
  · rw [if_neg h16, if_neg h16]
    have e1 : 0x40 + i - 0x10 = 0x40 + (i - 16) := by omega
    rw [e1, Nat.mod_eq_of_lt (by omega), Nat.mod_eq_of_lt (by omega)]

/-- C6: the Debug-RAM index map returns i for i < 16 and 0x40 + (i - 16)
otherwise, and is injective over the index domain (which is bounded by 64,
the largest dramsize the 6-bit DMINFO field plus one can encode). -/
theorem C6_dram_address_map : ∀ i j : Nat, i ≤ 64 → j ≤ 64 →
    ((i < 16 → dram_address i = i) ∧
     (16 ≤ i → dram_address i = 0x40 + (i - 16)) ∧
     (dram_address i = dram_address j → i = j)) := by
  intro i j hi hj
  have ei := dram_address_eq i hi
  have ej := dram_address_eq j hj
  refine ⟨?_, ?_, ?_⟩
  · intro h; rw [ei, if_pos h]
  · intro h; rw [ei, if_neg (by omega)]
  · intro h
    rw [ei, ej] at h
    split_ifs at h <;> omega

/-- Witness for C6 at concrete indices 3 (dense range) and 20 (offset
range). -/
theorem C6_witness : dram_address 3 = 3 ∧ dram_address 20 = 0x44 := by
  have h1 := (C6_dram_address_map 3 20 (by decide) (by decide)).1 (by decide)
  have h2 := (C6_dram_address_map 20 3 (by decide) (by decide)).2.1 (by decide)
  exact ⟨h1, by omega⟩

/-- C7 counterexample: at index 16 the offset the code stages is computed
from the logical index (riscv.c line 245 uses 4*index), not from the
mapped hardware address the claim names: the two values differ. -/
theorem C7_counterexample :
    dram_write_jump_offset 16 = 0x3C4 ∧
    DEBUG_ROM_RESUME - (DEBUG_RAM_START + 4 * dram_address 16) = 0x304 ∧
    dram_write_jump_offset 16 ≠ DEBUG_ROM_RESUME - (DEBUG_RAM_START + 4 * dram_address 16) := by
  decide

/-- C7 amended: for every index in the scratch range the staged jump
offset equals resume_vector - (scratch_base + 4*index), using the logical
index directly; this agrees with the mapped-address form of the claim
exactly on indices below 16, where the map is the identity. -/
theorem C7_amended_jump_offset : ∀ index : Nat, index ≤ 64 →
    dram_write_jump_offset index = DEBUG_ROM_RESUME - (DEBUG_RAM_START + 4 * index) ∧
    (index < 16 →
      dram_write_jump_offset index =
        DEBUG_ROM_RESUME - (DEBUG_RAM_START + 4 * dram_address index)) := by
  intro index h
  have hr : DEBUG_ROM_RESUME = 0x804 := rfl
  have hb : DEBUG_RAM_START = 0x400 := rfl
  have key : dram_write_jump_offset index = DEBUG_ROM_RESUME - (DEBUG_RAM_START + 4 * index) := by
    unfold dram_write_jump_offset
    rw [hr, hb, Nat.mod_eq_of_lt (show 0x400 + 4 * index < 2 ^ 32 by omega)]
    have e1 : 0x804 + 2 ^ 32 - (0x400 + 4 * index) = 2 ^ 32 + (0x404 - 4 * index) := by omega
    rw [e1, Nat.add_mod_left, Nat.mod_eq_of_lt (by omega)]
    omega
  refine ⟨key, fun h16 => ?_⟩
  have hmap : dram_address index = index := by
    rw [dram_address_eq index h, if_pos h16]
  rw [key, hmap]

/-- Witness for C7 at the concrete index 5 (the index riscv_examine
actually stages its resume jump at). -/
theorem C7_witness :
    dram_write_jump_offset 5 = DEBUG_ROM_RESUME - (DEBUG_RAM_START + 4 * 5) ∧
    (5 < 16 → dram_write_jump_offset 5 =
      DEBUG_ROM_RESUME - (DEBUG_RAM_START + 4 * dram_address 5)) :=
  C7_amended_jump_offset 5 (by decide)

/-- C8: when jtag_execute_queue fails with error code -4 during the
DTM-info read, dtminfo_read returns that code through its uint32_t return
type, making it indistinguishable from a genuine scan value 0xFFFFFFFC,
and riscv_examine still decodes an address-bits field (0xF) from it and
carries on — the failure is not propagated as a distinguishable error. -/
theorem C8_dtminfo_error_swallowed :
    dtminfo_read (Except.error (-4)) = 0xFFFFFFFC ∧
    dtminfo_read (Except.error (-4)) = dtminfo_read (Except.ok 0xFFFFFFFC) ∧
    riscv_examine_addrbits (Except.error (-4)) = 0xF := by
  decide

/-- Structure of every terminating run of the retry-while-BUSY loop: some
positive number n of identical scans is driven, the cache holds the
scanned address and op, the first n-1 responses were BUSY, and the last
response is the non-BUSY code the loop returns. -/
theorem dbus_busy_loop_spec (env : Nat → TransportResp) (op : DbusOp)
    (address data_out : Nat) :
    ∀ (fuel : Nat) (s : DbusState) (acc : Option Nat) (s' : DbusState) (code : Int)
      (d : Option Nat),
      dbus_busy_loop env op address data_out fuel s acc = some (s', code, d) →
      ∃ n, 0 < n ∧ n ≤ fuel ∧
        s'.info = { s.info with dbus_address := address, dbus_op := op } ∧
        s'.count = s.count + n ∧
        s'.trace = s.trace ++ List.replicate n
          { op := op, addr := address % 2 ^ s.info.addrbits,
            data := data_out % 2 ^ DBUS_DATA_SIZE } ∧
        (∀ j, j + 1 < n → respCode env (s.count + j) = 3) ∧
        respCode env (s.count + (n - 1)) = code ∧ code ≠ 3 := by
  intro fuel
  induction fuel with
  | zero =>
    intro s acc s' code d h
    simp [dbus_busy_loop] at h
  | succ fuel ih =>
    intro s acc s' code d h
    simp only [dbus_busy_loop, dbus_scan] at h
    by_cases hc : respCode env s.count = 3
    · rw [if_pos hc] at h
      obtain ⟨n, hn0, hnf, hinfo, hcount, htrace, hbusy, hlast, hne⟩ := ih _ _ _ _ _ h
      refine ⟨n + 1, by omega, by omega, ?_, ?_, ?_, ?_, ?_, hne⟩
      · rw [hinfo]
      · rw [hcount]; show s.count + 1 + n = s.count + (n + 1); omega
      · rw [htrace]
        rw [List.append_assoc]
        congr 1
      · intro j hj
        cases j with
        | zero => simpa using hc
        | succ j' =>
          have := hbusy j' (by omega)
          have harg : s.count + (j' + 1 + 1) - 1 = s.count + 1 + j' + 1 - 1 := by omega
          have harg2 : s.count + (j' + 1) = s.count + 1 + j' := by omega
          rw [harg2]
          exact this
      · have harg : s.count + (n + 1 - 1) = s.count + 1 + (n - 1) := by omega
        rw [harg]
        exact hlast
    · rw [if_neg hc] at h
      simp only [Option.some.injEq, Prod.mk.injEq] at h
      obtain ⟨h1, h2, h3⟩ := h
      refine ⟨1, by omega, by omega, ?_, ?_, ?_, ?_, ?_, ?_⟩
      · rw [← h1]
      · rw [← h1]
      · rw [← h1]; simp
      · intro j hj; omega
      · simpa using h2
      · rw [← h2]; exact hc

/-- The retry loop terminates as soon as the transport stops answering
BUSY: if the k responses starting at the current scan count are BUSY and
the k-th is not, any fuel above k makes the loop return that k-th
response code. -/
theorem dbus_busy_loop_terminates (env : Nat → TransportResp) (op : DbusOp)
    (address data_out : Nat) :
    ∀ (k fuel : Nat) (s : DbusState) (acc : Option Nat),
      k < fuel →
      (∀ j, j < k → respCode env (s.count + j) = 3) →
      respCode env (s.count + k) ≠ 3 →
      ∃ s' d, dbus_busy_loop env op address data_out fuel s acc =
        some (s', respCode env (s.count + k), d) := by
  intro k
  induction k with
  | zero =>
    intro fuel s acc hf _hb hk
    obtain ⟨fuel', rfl⟩ : ∃ f, fuel = f + 1 := ⟨fuel - 1, by omega⟩
    simp only [dbus_busy_loop, dbus_scan]
    rw [if_neg (by simpa using hk)]
    exact ⟨_, _, rfl⟩
  | succ k ih =>
    intro fuel s acc hf hb hk
    obtain ⟨fuel', rfl⟩ : ∃ f, fuel = f + 1 := ⟨fuel - 1, by omega⟩
    simp only [dbus_busy_loop, dbus_scan]
    rw [if_pos (by simpa using hb 0 (by omega))]
    have e : s.count + (k + 1) = s.count + 1 + k := by omega
    rw [e]
    refine ih fuel' _ _ (by omega) ?_ ?_
    · intro j hj
      have := hb (j + 1) (by omega)
      have e2 : s.count + (j + 1) = s.count + 1 + j := by omega
      rw [e2] at this
      exact this
    · rw [e] at hk
      exact hk

/-- Under a transport that answers BUSY forever, the retry loop never
returns, whatever the fuel: the C loop spins without bound. -/
theorem dbus_busy_loop_allBusy (env : Nat → TransportResp) (op : DbusOp)
    (address data_out : Nat) (hb : ∀ i, respCode env i = 3) :
    ∀ (fuel : Nat) (s : DbusState) (acc : Option Nat),
      dbus_busy_loop env op address data_out fuel s acc = none := by
  intro fuel
  induction fuel with
  | zero => intro s acc; rfl
  | succ fuel ih =>
    intro s acc
    simp only [dbus_busy_loop, dbus_scan]
    rw [if_pos (hb _)]
    exact ih _ _

/-- When the cache already holds the requested address with any pending
non-NOP operation, dbus_read issues only the second loop's scans: some
positive number of READ scans to next_address with data 0. -/
theorem dbus_read_spec_cached (env : Nat → TransportResp) (fuel : Nat)
    (s : DbusState) (address next_address : Nat) (s' : DbusState) (code : Int)
    (d : Option Nat)
    (hc : address = s.info.dbus_address) (ho : s.info.dbus_op ≠ DbusOp.nop)
    (h : dbus_read env fuel s address next_address = some (s', code, d)) :
    ∃ n, 0 < n ∧ n ≤ fuel ∧
      s'.trace = s.trace ++ List.replicate n
        { op := DbusOp.read, addr := next_address % 2 ^ s.info.addrbits, data := 0 } ∧
      (∀ j, j + 1 < n → respCode env (s.count + j) = 3) ∧
      respCode env (s.count + (n - 1)) = code ∧ code ≠ 3 := by
  simp only [dbus_read] at h
  rw [if_neg (by simp [hc, ho])] at h
  rw [Option.some_bind] at h
  obtain ⟨n, hn0, hnf, _hinfo, _hcount, htrace, hbusy, hlast, hne⟩ :=
    dbus_busy_loop_spec env .read next_address 0 fuel s none s' code d h
  refine ⟨n, hn0, hnf, ?_, hbusy, hlast, hne⟩
  simpa [Nat.zero_mod] using htrace

/-- When the cache does not hold the requested address with a pending
non-NOP operation, dbus_read issues two batches of READ scans with data 0:
first to address (all but the last answered BUSY, the last not BUSY), then
to next_address. -/
theorem dbus_read_spec_fresh (env : Nat → TransportResp) (fuel : Nat)
    (s : DbusState) (address next_address : Nat) (s' : DbusState) (code : Int)
    (d : Option Nat)
    (hc : ¬(address = s.info.dbus_address ∧ s.info.dbus_op ≠ DbusOp.nop))
    (h : dbus_read env fuel s address next_address = some (s', code, d)) :
    ∃ n1 n2, 0 < n1 ∧ 0 < n2 ∧
      s'.trace = s.trace
        ++ List.replicate n1
          { op := DbusOp.read, addr := address % 2 ^ s.info.addrbits, data := 0 }
        ++ List.replicate n2
          { op := DbusOp.read, addr := next_address % 2 ^ s.info.addrbits, data := 0 } ∧
      (∀ j, j + 1 < n1 → respCode env (s.count + j) = 3) ∧
      respCode env (s.count + (n1 - 1)) ≠ 3 ∧
      (∀ j, j + 1 < n2 → respCode env (s.count + n1 + j) = 3) ∧
      respCode env (s.count + n1 + (n2 - 1)) = code ∧ code ≠ 3 := by
  simp only [dbus_read] at h
  rw [if_pos (by tauto)] at h
  rw [Option.map_eq_bind] at h
  rw [Option.bind_assoc] at h
  obtain ⟨r1, hr1, h2⟩ := Option.bind_eq_some.mp h
  obtain ⟨n1, hn10, _hn1f, hinfo1, hcount1, htrace1, hbusy1, hlast1, hne1⟩ :=
    dbus_busy_loop_spec env .read address 0 fuel s none r1.1 r1.2.1 r1.2.2
      (by simpa using hr1)
  obtain ⟨n2, hn20, _hn2f, _hinfo2, _hcount2, htrace2, hbusy2, hlast2, hne2⟩ :=
    dbus_busy_loop_spec env .read next_address 0 fuel r1.1 none s' code d
      (by simpa using h2)
  have haddrbits : r1.1.info.addrbits = s.info.addrbits := by rw [hinfo1]
  refine ⟨n1, n2, hn10, hn20, ?_, ?_, ?_, ?_, ?_, hne2⟩
  · rw [htrace2, haddrbits, htrace1]
    simp [List.append_assoc]
  · simpa [Nat.zero_mod] using hbusy1
  · rw [← hlast1] at hne1
    exact hne1
  · intro j hj
    have := hbusy2 j hj
    rw [hcount1] at this
    exact this
  · have := hlast2
    rw [hcount1] at this
    exact this

/-- Shared helper: against a stub answering BUSY exactly k times and then
SUCCESS, dbus_write from the fresh session state terminates with result
SUCCESS after exactly k+1 identical WRITE scans to the given address. -/
theorem dbus_write_busyThen (k addr value : Nat) (haddr : addr < 2 ^ 6) :
    ∃ s', dbus_write (busyThenEnv k) (k + 1) s0 addr value = some (s', 0) ∧
      s'.trace = List.replicate (k + 1)
        { op := DbusOp.write, addr := addr, data := value % 2 ^ DBUS_DATA_SIZE } := by
  have hbusy : ∀ j, j < k → respCode (busyThenEnv k) (s0.count + j) = 3 := by
    intro j hj
    show respCode (busyThenEnv k) (0 + j) = 3
    rw [Nat.zero_add]
    simp [respCode, busyThenEnv, hj, DbusResult.toCode]
  have hne : respCode (busyThenEnv k) (s0.count + k) ≠ 3 := by
    show respCode (busyThenEnv k) (0 + k) ≠ 3
    rw [Nat.zero_add]
    simp [respCode, busyThenEnv, DbusResult.toCode]
  have hcode : respCode (busyThenEnv k) (s0.count + k) = 0 := by
    show respCode (busyThenEnv k) (0 + k) = 0
    rw [Nat.zero_add]
    simp [respCode, busyThenEnv, DbusResult.toCode]
  obtain ⟨s', d, hterm⟩ := dbus_busy_loop_terminates (busyThenEnv k) .write addr value
    k (k + 1) s0 none (by omega) hbusy hne
  obtain ⟨n, hn0, hnf, _hinfo, _hcount, htrace, hb, hlast, hne3⟩ :=
    dbus_busy_loop_spec (busyThenEnv k) .write addr value (k + 1) s0 none s' _ d hterm
  have hnk : n = k + 1 := by
    rcases Nat.lt_trichotomy n (k + 1) with hlt | heq | hgt
    · exfalso
      have h3 : respCode (busyThenEnv k) (s0.count + (n - 1)) = 3 := by
        show respCode (busyThenEnv k) (0 + (n - 1)) = 3
        rw [Nat.zero_add]
        simp only [respCode, busyThenEnv]
        rw [if_pos (by omega)]
        rfl
      rw [hlast, hcode] at h3
      exact absurd h3 (by decide)
    · exact heq
    · exfalso
      have h3 := hb k (by omega)
      rw [hcode] at h3
      exact absurd h3 (by decide)
  subst hnk
  refine ⟨s', ?_, ?_⟩
  · unfold dbus_write
    rw [hterm, hcode]
    rfl
  · have hmod : addr % 2 ^ s0.info.addrbits = addr :=
      Nat.mod_eq_of_lt (show addr < 2 ^ s0.info.addrbits from haddr)
    rw [htrace, hmod]
    rfl

/-- C5: for every k, a dbus_write against a stub returning BUSY exactly k
times then SUCCESS issues exactly k+1 WRITE scans, all to the requested
address with the same 34-bit payload, and no scan to any other address
(the trace is exactly that replicate list). -/
theorem C5_write_busy_backpressure : ∀ (k addr value : Nat), addr < 2 ^ 6 →
    ∃ s', dbus_write (busyThenEnv k) (k + 1) s0 addr value = some (s', 0) ∧
      s'.trace = List.replicate (k + 1)
        { op := DbusOp.write, addr := addr, data := value % 2 ^ DBUS_DATA_SIZE } := by
  intro k addr value haddr
  exact dbus_write_busyThen k addr value haddr

/-- Witness for C5 at the spec's concrete scenario: write(0x10, 0x1234)
against BUSY three times then SUCCESS gives exactly four WRITE scans to
0x10. -/
theorem C5_witness :
    ∃ s', dbus_write (busyThenEnv 3) (3 + 1) s0 0x10 0x1234 = some (s', 0) ∧
      s'.trace = List.replicate (3 + 1)
        { op := DbusOp.write, addr := 0x10, data := 0x1234 % 2 ^ DBUS_DATA_SIZE } :=
  C5_write_busy_backpressure 3 0x10 0x1234 (by decide)

/-- C4 counterexample: the code has no retry ceiling at all — against a
stub that always answers BUSY, dbus_write never returns, whatever bound
(fuel) is imposed on the loop; no "device unresponsive" error is ever
surfaced. -/
theorem C4_counterexample :
    ¬ ∃ fuel r, dbus_write envAllBusy fuel s0 0x10 0x1234 = some r := by
  rintro ⟨fuel, r, h⟩
  unfold dbus_write at h
  rw [dbus_busy_loop_allBusy envAllBusy DbusOp.write 0x10 0x1234 (fun i => rfl) fuel s0 none] at h
  simp at h

/-- C4 amended: the retry-on-BUSY loops in dbus_read and dbus_write are
unbounded spins: they terminate (after exactly k+1 scans) whenever the
stub stops answering BUSY after k responses, but under perpetual BUSY
neither terminates for any fuel, and no retry ceiling or fatal
"device unresponsive" error exists in the code. -/
theorem C4_amended_unbounded_retry :
    (∀ k : Nat, ∃ s', dbus_write (busyThenEnv k) (k + 1) s0 0x10 0x1234 = some (s', 0)) ∧
    (∀ fuel, dbus_write envAllBusy fuel s0 0x10 0x1234 = none) ∧
    (∀ fuel next_address, dbus_read envAllBusy fuel s0 0x10 next_address = none) := by
  refine ⟨?_, ?_, ?_⟩
  · intro k
    obtain ⟨s', hw, _⟩ := dbus_write_busyThen k 0x10 0x1234 (by decide)
    exact ⟨s', hw⟩
  · intro fuel
    unfold dbus_write
    rw [dbus_busy_loop_allBusy envAllBusy DbusOp.write 0x10 0x1234 (fun i => rfl) fuel s0 none]
    rfl
  · intro fuel next_address
    simp only [dbus_read]
    rw [if_pos (Or.inl (by decide))]
    rw [dbus_busy_loop_allBusy envAllBusy DbusOp.read 0x10 0 (fun i => rfl) fuel s0 none]
    rfl

/-- Cache contents holding address 5 with a pending WRITE. -/
def infoW : RiscvInfo :=
  { riscv_init_info with addrbits := 6, dbus_address := 5, dbus_op := DbusOp.write }

/-- Cache contents holding address 5 with a pending READ. -/
def infoR : RiscvInfo :=
  { riscv_init_info with addrbits := 6, dbus_address := 5, dbus_op := DbusOp.read }

/-- Session state whose cache holds address 5 with a pending WRITE (the
situation right after a dbus_write to register 5 completed). -/
def sW : DbusState := { info := infoW, count := 0, trace := [] }

/-- Session state whose cache holds address 5 with a pending READ. -/
def sR : DbusState := { info := infoR, count := 0, trace := [] }

/-- State after one successful READ scan to address 0 from sW or sR. -/
def sDone : DbusState :=
  { info := { riscv_init_info with addrbits := 6, dbus_address := 0, dbus_op := DbusOp.read },
    count := 1, trace := [{ op := DbusOp.read, addr := 0, data := 0 }] }

/-- C1 counterexample: with the cache holding (address 5, last op WRITE),
the cache does not show address 5 as having a pending READ, so the claim
requires a first READ scan targeting 5 followed by a second scan — at
least two scans. The code's condition (riscv.c line 158) only checks for
a non-NOP cached op, skips the first loop, and issues exactly one scan. -/
theorem C1_counterexample :
    ¬(sW.info.dbus_address = 5 ∧ sW.info.dbus_op = DbusOp.read) ∧
    dbus_read envAllSuccess 2 sW 5 0 = some (sDone, 0, some 0) ∧
    sDone.trace.length = 1 := by
  refine ⟨by decide, by decide, by decide⟩

/-- C1 amended: dbus_read issues only the second batch of READ scans (to
next_address) when the cache holds the requested address with any pending
non-NOP operation — not specifically a READ — and otherwise issues a first
batch of READ scans targeting the address (all but the last answered BUSY)
followed by the second batch. -/
theorem C1_amended_read_scan_discipline : ∀ (env : Nat → TransportResp) (fuel : Nat)
    (s : DbusState) (address next_address : Nat) (s' : DbusState) (code : Int)
    (d : Option Nat),
    dbus_read env fuel s address next_address = some (s', code, d) →
    ((address = s.info.dbus_address ∧ s.info.dbus_op ≠ DbusOp.nop) →
      ∃ n, 0 < n ∧ s'.trace = s.trace ++ List.replicate n
        { op := DbusOp.read, addr := next_address % 2 ^ s.info.addrbits, data := 0 }) ∧
    (¬(address = s.info.dbus_address ∧ s.info.dbus_op ≠ DbusOp.nop) →
      ∃ n1 n2, 0 < n1 ∧ 0 < n2 ∧
        s'.trace = s.trace
          ++ List.replicate n1
            { op := DbusOp.read, addr := address % 2 ^ s.info.addrbits, data := 0 }
          ++ List.replicate n2
            { op := DbusOp.read, addr := next_address % 2 ^ s.info.addrbits, data := 0 } ∧
        (∀ j, j + 1 < n1 → respCode env (s.count + j) = 3) ∧
        respCode env (s.count + (n1 - 1)) ≠ 3) := by
  intro env fuel s address next_address s' code d h
  constructor
  · intro hcase
    obtain ⟨n, hn0, _, htrace, _⟩ :=
      dbus_read_spec_cached env fuel s address next_address s' code d hcase.1 hcase.2 h
    exact ⟨n, hn0, htrace⟩
  · intro hcase
    obtain ⟨n1, n2, h1, h2, h3, h4, h5, _⟩ :=
      dbus_read_spec_fresh env fuel s address next_address s' code d hcase h
    exact ⟨n1, n2, h1, h2, h3, h4, h5⟩

/-- Witness for C1 at a concrete input: with the cache holding (5, READ),
a dbus_read of address 5 issues only the single second-batch scan. -/
theorem C1_witness :
    ∃ n, 0 < n ∧ sDone.trace = sR.trace ++ List.replicate n
      { op := DbusOp.read, addr := 0 % 2 ^ sR.info.addrbits, data := 0 } :=
  (C1_amended_read_scan_discipline envAllSuccess 1 sR 5 0 sDone 0 (some 0)
    (by decide)).1 (by decide)

/-- State after dram_write32 of value 0x1234 to index 0 from s0 succeeds
in one scan: the staged dbus word is HALTNOT OR 0x1234 = 0x200001234. -/
def c9_state : DbusState :=
  { info := { riscv_init_info with addrbits := 6, dbus_address := 0, dbus_op := DbusOp.write },
    count := 1, trace := [{ op := DbusOp.write, addr := 0, data := 0x200001234 }] }

/-- C9 counterexample: a dram_write32 that succeeds (terminal result
SUCCESS) leaves the dram_valid bit of the written index clear — the code
never sets any bit of dram_valid, contradicting the claim that the bit is
set after every successful write. -/
theorem C9_counterexample :
    dram_write32 envAllSuccess 1 s0 0 0x1234 false = some (c9_state, 0) ∧
    c9_state.info.dram_valid.testBit 0 = false := by
  refine ⟨by decide, by decide⟩

/-- C9 amended: dram_valid is zero at session start (riscv_init_target's
calloc) and riscv_examine resets it to zero, but dram_write32 never
modifies it — the mask is preserved unchanged by every write, successful
or not, so no bit is ever set by a write. -/
theorem C9_amended_valid_mask :
    riscv_init_info.dram_valid = 0 ∧
    ∀ (env : Nat → TransportResp) (fuel : Nat) (s : DbusState) (index value : Nat)
      (si : Bool) (s' : DbusState) (code : Int),
      dram_write32 env fuel s index value si = some (s', code) →
      s'.info.dram_valid = s.info.dram_valid := by
  refine ⟨rfl, ?_⟩
  intro env fuel s index value si s' code h
  simp only [dram_write32, dbus_write] at h
  obtain ⟨r, hr, he⟩ := Option.map_eq_some'.mp h
  obtain ⟨n, _, _, hinfo, _, _, _, _, _⟩ :=
    dbus_busy_loop_spec env .write (dram_address index) _ fuel s none r.1 r.2.1 r.2.2
      (by simpa using hr)
  have h1 : r.1 = s' := congrArg Prod.fst he
  rw [← h1, hinfo]

/-- Witness for C9 amended at a concrete input: the successful write of
0x1234 to index 0 leaves dram_valid exactly as it was. -/
theorem C9_witness : c9_state.info.dram_valid = s0.info.dram_valid :=
  C9_amended_valid_mask.2 envAllSuccess 1 s0 0 0x1234 false c9_state 0 (by decide)

/-- C10: dram_read32 ignores its set_interrupt flag entirely — both flag
values give the same result (value, result code and session state), and
every scan a terminating run adds to the trace is a READ operation with
data payload 0, so a Debug-RAM read never drives the halt-request or
interrupt-request bits onto the bus. -/
theorem C10_read_ignores_interrupt_flag : ∀ (env : Nat → TransportResp) (fuel : Nat)
    (s : DbusState) (index : Nat) (b1 b2 : Bool) (s' : DbusState) (code : Int)
    (d : Option Nat),
    dram_read32 env fuel s index b1 = some (s', code, d) →
    dram_read32 env fuel s index b1 = dram_read32 env fuel s index b2 ∧
    ∃ ts, s'.trace = s.trace ++ ts ∧ ∀ sc ∈ ts, sc.op = DbusOp.read ∧ sc.data = 0 := by
  intro env fuel s index b1 b2 s' code d h
  refine ⟨rfl, ?_⟩
  simp only [dram_read32] at h
  obtain ⟨r, hr, he⟩ := Option.map_eq_some'.mp h
  have h1 : r.1 = s' := congrArg Prod.fst he
  by_cases hcond : dram_address index = s.info.dbus_address ∧ s.info.dbus_op ≠ DbusOp.nop
  · obtain ⟨n, _, _, htrace, _⟩ :=
      dbus_read_spec_cached env fuel s (dram_address index) (dram_address index)
        r.1 r.2.1 r.2.2 hcond.1 hcond.2 (by simpa using hr)
    refine ⟨_, by rw [← h1]; exact htrace, ?_⟩
    intro sc hsc
    rw [List.eq_of_mem_replicate hsc]
    exact ⟨rfl, rfl⟩
  · obtain ⟨n1, n2, _, _, htrace, _⟩ :=
      dbus_read_spec_fresh env fuel s (dram_address index) (dram_address index)
        r.1 r.2.1 r.2.2 hcond (by simpa using hr)
    refine ⟨List.replicate n1
        { op := DbusOp.read, addr := dram_address index % 2 ^ s.info.addrbits, data := 0 }
      ++ List.replicate n2
        { op := DbusOp.read, addr := dram_address index % 2 ^ s.info.addrbits, data := 0 },
      ?_, ?_⟩
    · rw [← h1, htrace, List.append_assoc]
    · intro sc hsc
      rcases List.mem_append.mp hsc with hm | hm <;>
        (rw [List.eq_of_mem_replicate hm]; exact ⟨rfl, rfl⟩)

/-- State after dram_read32 of index 3 from s0: two READ scans to
address 3 (fresh-cache path), both with data 0. -/
def c10_state : DbusState :=
  { info := { riscv_init_info with addrbits := 6, dbus_address := 3, dbus_op := DbusOp.read },
    count := 2, trace := [{ op := DbusOp.read, addr := 3, data := 0 },
      { op := DbusOp.read, addr := 3, data := 0 }] }

/-- Witness for C10 at a concrete input: reading index 3 with the flag
true and false gives identical results, and the two scans issued are READs
with data 0. -/
theorem C10_witness :
    dram_read32 envAllSuccess 1 s0 3 true = dram_read32 envAllSuccess 1 s0 3 false ∧
    ∃ ts, c10_state.trace = s0.trace ++ ts ∧ ∀ sc ∈ ts, sc.op = DbusOp.read ∧ sc.data = 0 :=
  C10_read_ignores_interrupt_flag envAllSuccess 1 s0 3 true false c10_state 0 (some 0)
    (by decide)
